import Mathlib

/-!
Shallow embedding of `sheet_utils.py` (edenplace_reportsheet_dashboard).

A worksheet is a 1-indexed grid of optional cell values (text or numbers,
numbers modelled as rationals).  Python dictionaries are modelled as
insertion-ordered association lists; Python exceptions (KeyError /
TypeError / AttributeError) are modelled with an `Except` monad carrying an
explicit error kind.  A dict field whose key may be absent is modelled as an
`Option` field; for the `overall` entry an absent key and a stored `None`
value are conflated (the source never reads `overall` back).
-/

set_option maxRecDepth 8000

namespace Edenplace

/-- A scalar cell value: spreadsheet cells hold text or numbers. -/
inductive CellVal : Type
  | str (s : String)
  | num (q : ℚ)
deriving DecidableEq, Repr

/-- Python exception kinds raised by the extraction code. -/
inductive PyError : Type
  | keyError (k : String)
  | typeError (m : String)
  | attributeError (m : String)
deriving DecidableEq, Repr

/-- Python truthiness of a cell value: empty string and zero are falsy. -/
def CellVal.truthy : CellVal → Bool
  | .str s => !s.isEmpty
  | .num q => decide (q ≠ 0)

/-- Python truthiness of an optional cell value: `None` is falsy. -/
def otruthy : Option CellVal → Bool
  | none => false
  | some v => v.truthy

/-- Python `str` methods are only available on strings: extracting the string
raises `AttributeError` on a number (and on `None`). -/
def asStr : Option CellVal → Except PyError String
  | some (.str s) => .ok s
  | some (.num _) => .error (.attributeError "float has no such attribute")
  | none => .error (.attributeError "NoneType has no such attribute")

/-- Characters removed by Python `str.strip()` with no argument. -/
def isPyWs (c : Char) : Bool :=
  c = ' ' || c = '\t' || c = '\n' || c = '\r' || c = '\x0b' || c = '\x0c'

/-- Python `str.strip()`: drop leading and trailing whitespace. -/
def pyStrip (s : String) : String :=
  String.mk (((s.data.dropWhile isPyWs).reverse.dropWhile isPyWs).reverse)

/-- Python `str.lower()` (ASCII range, which covers all inputs used here). -/
def pyLower (s : String) : String :=
  String.mk (s.data.map Char.toLower)

/-- One step of Python `str.title()`: uppercase a letter that does not follow
a letter, lowercase a letter that does. -/
def pyTitleCh : Bool → List Char → List Char
  | _, [] => []
  | prevAlpha, c :: rest =>
    if c.isAlpha then
      (if prevAlpha then c.toLower else c.toUpper) :: pyTitleCh true rest
    else
      c :: pyTitleCh false rest

/-- Python `str.title()` (ASCII range). -/
def pyTitle (s : String) : String :=
  String.mk (pyTitleCh false s.data)

/-- Lookup in an insertion-ordered association list (Python `dict[key]` /
`key in dict`). -/
def alookup {V : Type} : List (String × V) → String → Option V
  | [], _ => none
  | (k, v) :: rest, key => if k = key then some v else alookup rest key

/-- Python `dict[key] = value`: replace in place if the key exists, else
append (insertion order preserved). -/
def upsert {V : Type} : List (String × V) → String → V → List (String × V)
  | [], k, v => [(k, v)]
  | (k', v') :: rest, k, v =>
    if k' = k then (k, v) :: rest else (k', v') :: upsert rest k v

/-- Whether `needle` starts `hay` (Python substring search helper). -/
def isPre : List Char → List Char → Bool
  | [], _ => true
  | _ :: _, [] => false
  | a :: as, b :: bs => a = b && isPre as bs

/-- Python `needle in hay` substring containment on char lists. -/
def hasSub (needle : List Char) : List Char → Bool
  | [] => isPre needle []
  | l@(_ :: rest) => isPre needle l || hasSub needle rest

/-- EXTERNAL_TO_INTERNAL_MAPPING from `sheet_utils.py`: external column
names (from the broadsheet) to internal names. -/
def EXTERNAL_TO_INTERNAL_MAPPING : List (String × String) :=
  [("mid", "mid_term_score"),
   ("exam", "exam_score"),
   ("total", "total_score"),
   ("mid %", "mid term %"),
   ("mid total", "mid term total"),
   ("sim %", "sum total %"),
   ("sum %", "sum total %"),
   ("1st term", "1st term total"),
   ("2nd term", "2nd term total"),
   ("3rd term", "3rd term total"),
   ("cumtotal", "cumulative (session) total"),
   ("av. total", "average total"),
   ("av. %", "average %")]

/-- `_to_internal` from `sheet_utils.py`: strip, lower-case, then look the
result up in the fixed mapping, falling back to the normalized string. -/
def to_internal (val : String) : String :=
  let v := pyLower (pyStrip val)
  (alookup EXTERNAL_TO_INTERNAL_MAPPING v).getD v

/-- Floor of a rational (`q.num` and `q.den` are coprime with positive
denominator, so integer floor division gives the floor). -/
def ratFloor (q : ℚ) : ℤ := Int.fdiv q.num (q.den : ℤ)

/-- Round-half-to-even to the nearest integer, as Python `round` does. -/
def roundHalfEven (x : ℚ) : ℤ :=
  let f : ℤ := ratFloor x
  let r : ℚ := x - (f : ℚ)
  if r < 1 / 2 then f
  else if 1 / 2 < r then f + 1
  else if f % 2 = 0 then f else f + 1

/-- Python `round(x, ndigits=1)` on exact (rational) values. -/
def pyRound1 (q : ℚ) : ℚ := ((roundHalfEven (10 * q) : ℤ) : ℚ) / 10

/-- Grades A-F from `sheet_utils.py`. -/
inductive Grade : Type
  | A | B | C | D | E | F
deriving DecidableEq, Repr

/-- The if/elif chain of `get_grade` applied to the rounded score. -/
def classifyScore (score : ℚ) : Grade :=
  if 85 ≤ score then Grade.A
  else if 70 ≤ score ∧ score ≤ 84 then Grade.B
  else if 55 ≤ score ∧ score ≤ 69 then Grade.C
  else if 50 ≤ score ∧ score ≤ 54 then Grade.D
  else if 45 ≤ score ∧ score ≤ 49 then Grade.E
  else Grade.F

/-- `get_grade` from `sheet_utils.py`: `None` stays `None`, otherwise round
to one decimal place and classify. -/
def get_grade : Option ℚ → Option Grade
  | none => none
  | some s => some (classifyScore (pyRound1 s))

instance {ε α : Type} [DecidableEq ε] [DecidableEq α] :
    DecidableEq (Except ε α) := fun a b =>
  match a, b with
  | .error x, .error y =>
    if h : x = y then isTrue (by rw [h])
    else isFalse (fun hc => by cases hc; exact h rfl)
  | .ok x, .ok y =>
    if h : x = y then isTrue (by rw [h])
    else isFalse (fun hc => by cases hc; exact h rfl)
  | .error _, .ok _ => isFalse (fun hc => by cases hc)
  | .ok _, .error _ => isFalse (fun hc => by cases hc)

/-- A worksheet: a title plus a 1-indexed grid of optional cell values. -/
structure Worksheet : Type where
  title : String
  rows : List (List (Option CellVal))
deriving DecidableEq

/-- Cell access (1-based row and column); out-of-range reads give `None`,
as openpyxl materializes empty cells for in-bounds-of-request coordinates. -/
def Worksheet.cell (ws : Worksheet) (r c : Nat) : Option CellVal :=
  match ws.rows.get? (r - 1) with
  | none => none
  | some row =>
    match row.get? (c - 1) with
    | none => none
    | some v => v

/-- `worksheet.max_row`. -/
def Worksheet.maxRow (ws : Worksheet) : Nat := ws.rows.length

/-- `worksheet.max_column`. -/
def Worksheet.maxCol (ws : Worksheet) : Nat :=
  ws.rows.foldl (fun m row => max m row.length) 0

/-- Whether every cell of a row is empty (`cell.value is None`). -/
def rowIsEmpty (row : List (Option CellVal)) : Bool :=
  row.all (fun c => c.isNone)

/-- The row-deletion loop of `remove_empty_first_rows`: keep deleting row 1
while it is entirely empty. -/
def rfeRows : List (List (Option CellVal)) → List (List (Option CellVal))
  | [] => []
  | r :: rest => if rowIsEmpty r then rfeRows rest else r :: rest

/-- `remove_empty_first_rows` from `sheet_utils.py`. -/
def remove_empty_first_rows (ws : Worksheet) : Worksheet :=
  { ws with rows := rfeRows ws.rows }

/-- Schema info for a column: the two keys a `SchemaInfo` dict can carry.
`column = none` models the `column` key being absent (reading it then raises
`KeyError`); for `overall` an absent key and a stored `None` are conflated
because the source only ever writes `overall`. -/
structure SchemaInfo : Type where
  column : Option Nat := none
  overall : Option CellVal := none
deriving DecidableEq, Repr

/-- The mutable state of the header scan in `get_broadsheet_schema`:
the `subjects` and `aggregates` dicts and `last_column_index`. -/
structure ScanState : Type where
  subjects : List (String × List (String × SchemaInfo))
  aggregates : List (String × SchemaInfo)
  last : Option Nat
deriving DecidableEq, Repr

/-- `BroadSheetSchema` from `sheet_utils.py`. -/
structure BroadSheetSchema : Type where
  term : String
  subjects : List (String × List (String × SchemaInfo))
  aggregates : List (String × SchemaInfo)
  teachers_comment : SchemaInfo
  coordinators_comment : SchemaInfo
deriving DecidableEq, Repr

/-- Register an empty placeholder dict for a subject title not yet known
(`if title not in schema["subjects"]`, insertion at the end). -/
def registerSubject (subs : List (String × List (String × SchemaInfo)))
    (t : String) : List (String × List (String × SchemaInfo)) :=
  if (alookup subs t).isSome then subs else subs ++ [(t, [])]

/-- `schema["subjects"][title][sub_title] = info`: `none` when `title` is
not a key of the subjects dict (Python raises `KeyError`). -/
def setSubjectEntry :
    List (String × List (String × SchemaInfo)) → String → String →
      SchemaInfo → Option (List (String × List (String × SchemaInfo)))
  | [], _, _, _ => none
  | (k, v) :: rest, t, s, info =>
    if k = t then some ((k, upsert v s info) :: rest)
    else
      match setSubjectEntry rest t s info with
      | none => none
      | some r => some ((k, v) :: r)

/-- The tail of the loop body of `get_broadsheet_schema` (lines 164-171):
reached with a resolved subject `t`; skip if the row-3 sub-title is falsy,
else canonicalize it, record its column and overall under subject `t`,
update the last data column and make `t` the active title. -/
def scanTail (st : ScanState) (prev : Option String) (t : String)
    (s0 ov : Option CellVal) (c : Nat) :
    Except PyError (ScanState × Option String) :=
  if otruthy s0 then
    match asStr s0 with
    | .error e => .error e
    | .ok s =>
      let s := to_internal s
      match setSubjectEntry st.subjects t s { column := some c, overall := ov } with
      | none => .error (.keyError t)
      | some subs => .ok ({ st with subjects := subs, last := some c }, some t)
  else .ok (st, prev)

/-- One column of the header scan of `get_broadsheet_schema` (the body of
the inner `for col in cols` loop, lines 136-171). -/
def scanCol (ws : Worksheet) (st : ScanState) (prev : Option String)
    (c : Nat) : Except PyError (ScanState × Option String) :=
  let t0 := ws.cell 2 c
  let s0 := ws.cell 3 c
  let ov := ws.cell 4 c
  if otruthy t0 then
    match asStr t0 with
    | .error e => .error e
    | .ok t =>
      let t := to_internal t
      scanTail { st with subjects := registerSubject st.subjects t } prev t s0 ov c
  else
    match prev with
    | some p => scanTail st prev p s0 ov c
    | none =>
      if otruthy s0 then
        match asStr s0 with
        | .error e => .error e
        | .ok s =>
          let s := to_internal s
          if hasSub ("comment".data) s.data then .ok (st, prev)
          else
            .ok ({ st with
              aggregates := upsert st.aggregates s { column := some c, overall := ov },
              last := some c }, prev)
      else .ok (st, prev)

/-- One batch of up to three columns; the active title resets per batch. -/
def scanBatchGo (ws : Worksheet) :
    List Nat → ScanState → Option String → Except PyError ScanState
  | [], st, _ => .ok st
  | c :: rest, st, prev =>
    match scanCol ws st prev c with
    | .error e => .error e
    | .ok (st', prev') => scanBatchGo ws rest st' prev'

/-- `itertools.batched(..., n=3)`: split the column list into runs of 3
(the final run may be shorter). -/
def chunk3 : List Nat → List (List Nat)
  | [] => []
  | [a] => [[a]]
  | [a, b] => [[a, b]]
  | a :: b :: c :: rest => [a, b, c] :: chunk3 rest

/-- The scanned columns: `iter_cols(min_col=3, max_col=300, ...)`. -/
def headerCols : List Nat := List.range' 3 298

/-- Fold the scan over all batches. -/
def scanBatches (ws : Worksheet) :
    List (List Nat) → ScanState → Except PyError ScanState
  | [], st => .ok st
  | b :: bs, st =>
    match scanBatchGo ws b st none with
    | .error e => .error e
    | .ok st' => scanBatches ws bs st'

/-- The whole header scan of `get_broadsheet_schema`. -/
def scanWs (ws : Worksheet) : Except PyError ScanState :=
  scanBatches ws (chunk3 headerCols)
    { subjects := [], aggregates := [], last := none }

/-- Assemble the `BroadSheetSchema`: term from the title, and the comment
columns at `last_column_index + 1` and `+ 2` when a data column was seen. -/
def finalizeSchema (title : String) (st : ScanState) : BroadSheetSchema :=
  { term := pyTitle (pyStrip title)
    subjects := st.subjects
    aggregates := st.aggregates
    teachers_comment :=
      match st.last with
      | none => {}
      | some l => { column := some (l + 1) }
    coordinators_comment :=
      match st.last with
      | none => {}
      | some l => { column := some (l + 2) } }

/-- `get_broadsheet_schema` from `sheet_utils.py`. -/
def get_broadsheet_schema (ws : Worksheet) : Except PyError BroadSheetSchema :=
  match scanWs ws with
  | .error e => .error e
  | .ok st => .ok (finalizeSchema ws.title st)

/-- Worksheet of C3's schema round-trip scenario: one subject "Math" with
sub-columns Mid/Exam/Total at columns 3-5 and overall 100 each. -/
def wsC3 : Worksheet :=
  { title := "T1"
    rows := [[],
      [none, none, some (.str "Math")],
      [none, none, some (.str "Mid"), some (.str "Exam"), some (.str "Total")],
      [none, none, some (.num 100), some (.num 100), some (.num 100)]] }

/-- Worksheet of C2's counterexample: a titled column whose own row-3
sub-title is empty, followed by a column with a sub-title only. -/
def wsC2 : Worksheet :=
  { title := "T"
    rows := [[],
      [none, none, some (.str "Math")],
      [none, none, none, some (.str "Mid")],
      []] }

/-- Empty worksheet used to instantiate C4. -/
def wsC4 : Worksheet := { title := "T", rows := [] }

/-- Scan state of the empty worksheet. -/
def stC4 : ScanState := { subjects := [], aggregates := [], last := none }

/-- `SubjectScore` from `sheet_utils.py`: raw cell values for the three
sections plus the computed grade. -/
structure SubjectScore : Type where
  mid_term_score : Option CellVal
  exam_score : Option CellVal
  total_score : Option CellVal
  grade : Option Grade
deriving DecidableEq, Repr

/-- `StudentResult` from `sheet_utils.py`. -/
structure StudentResult : Type where
  term : String
  student : String
  subjects : List (String × SubjectScore)
  aggregates : List (String × Option ℚ)
  teachers_comment : Option String
  coordinators_comment : Option String
deriving DecidableEq, Repr

/-- `BroadSheetData` from `sheet_utils.py`. -/
structure BroadSheetData : Type where
  students_results : List StudentResult
  broadsheet_schema : BroadSheetSchema
deriving DecidableEq, Repr

/-- `info["column"]`: raises `KeyError` when the key is absent. -/
def getColumn (si : SchemaInfo) : Except PyError Nat :=
  match si.column with
  | none => .error (.keyError "column")
  | some c => .ok c

/-- `d[k]` on a dict: raises `KeyError` when the key is absent. -/
def getKey {V : Type} (d : List (String × V)) (k : String) :
    Except PyError V :=
  match alookup d k with
  | none => .error (.keyError k)
  | some v => .ok v

/-- `get_grade(total_score)` applied to a raw cell value: `round` raises
`TypeError` on a (truthy or not) string value. -/
def gradeOfCell : Option CellVal → Except PyError (Option Grade)
  | none => .ok (get_grade none)
  | some (.num q) => .ok (get_grade (some q))
  | some (.str _) => .error (.typeError "type does not define a rounding")

/-- `get_subjects_scores_for_student` from `sheet_utils.py`. -/
def get_subjects_scores_for_student (ws : Worksheet) (row : Nat) :
    List (String × List (String × SchemaInfo)) →
      Except PyError (List (String × SubjectScore))
  | [] => .ok []
  | (subject, ss) :: rest => do
    let mi ← getKey ss "mid_term_score"
    let mc ← getColumn mi
    let ei ← getKey ss "exam_score"
    let ec ← getColumn ei
    let ti ← getKey ss "total_score"
    let tc ← getColumn ti
    let mid := ws.cell row mc
    let exam := ws.cell row ec
    let tot := ws.cell row tc
    let g ← gradeOfCell tot
    let rest' ← get_subjects_scores_for_student ws row rest
    let score : SubjectScore :=
      { mid_term_score := mid, exam_score := exam
        total_score := tot, grade := g }
    .ok ((subject, score) :: rest')

/-- `round(aggregate_value, ndigits=1) if aggregate_value else None`:
a falsy cell (None, 0, "") collapses to `None`; `round` on a truthy
string raises `TypeError`. -/
def pyRoundIfTruthy (v : Option CellVal) : Except PyError (Option ℚ) :=
  if otruthy v then
    match v with
    | some (.num x) => .ok (some (pyRound1 x))
    | _ => .error (.typeError "type does not define a rounding")
  else .ok none

/-- `get_aggregates_values` from `sheet_utils.py`. -/
def get_aggregates_values (ws : Worksheet) (row : Nat) :
    List (String × SchemaInfo) → Except PyError (List (String × Option ℚ))
  | [] => .ok []
  | (aggregate, si) :: rest => do
    let c ← getColumn si
    let q ← pyRoundIfTruthy (ws.cell row c)
    let rest' ← get_aggregates_values ws row rest
    .ok ((aggregate, q) :: rest')

/-- `get_comment_value` from `sheet_utils.py`: falsy cell gives `None`,
else the stripped string (`strip` raises `AttributeError` on a number). -/
def get_comment_value (ws : Worksheet) (row col : Nat) :
    Except PyError (Option String) :=
  let v := ws.cell row col
  if otruthy v then
    match v with
    | some (.str s) => .ok (some (pyStrip s))
    | _ => .error (.attributeError "no strip attribute")
  else .ok none

/-- Rows scanned by `students`: `iter_rows(min_row=5, ...)` up to
`max_row`. -/
def studentRows (ws : Worksheet) : List Nat := List.range' 5 (ws.maxRow - 4)

/-- The `for student in students(worksheet)` loop of `student_results`,
with the `students` generator interleaved: falsy names are skipped, a
non-string truthy name raises `AttributeError` at yield time, then the
result pieces are computed in source order. -/
def studentResultsGo (ws : Worksheet) (schema : BroadSheetSchema) :
    List Nat → Except PyError (List StudentResult)
  | [] => .ok []
  | r :: rest =>
    if otruthy (ws.cell r 2) then
      match ws.cell r 2 with
      | some (.str s) => do
        let subs ← get_subjects_scores_for_student ws r schema.subjects
        let aggs ← get_aggregates_values ws r schema.aggregates
        let tcc ← getColumn schema.teachers_comment
        let tc ← get_comment_value ws r tcc
        let ccc ← getColumn schema.coordinators_comment
        let cc ← get_comment_value ws r ccc
        let rest' ← studentResultsGo ws schema rest
        let result : StudentResult :=
          { term := schema.term, student := pyTitle (pyStrip s)
            subjects := subs, aggregates := aggs, teachers_comment := tc
            coordinators_comment := cc }
        .ok (result :: rest')
      | _ => .error (.attributeError "no strip attribute")
    else studentResultsGo ws schema rest

/-- `student_results` from `sheet_utils.py`, with the schema supplied (as
the orchestrator does) and the lazy generator collected into a list. -/
def student_results (ws : Worksheet) (schema : BroadSheetSchema) :
    Except PyError (List StudentResult) :=
  studentResultsGo ws schema (studentRows ws)

/-- The filter of `nonempty_worksheets`: skip sheets with fewer than 5 rows
or fewer than 3 columns. -/
def keepWorksheet (ws : Worksheet) : Bool :=
  !(decide (ws.maxRow < 5) || decide (ws.maxCol < 3))

/-- The per-worksheet body of `extract_broadsheets_data`: normalize,
extract the schema, collect the student results. -/
def processWs (ws : Worksheet) : Except PyError (String × BroadSheetData) := do
  let ws' := remove_empty_first_rows ws
  let schema ← get_broadsheet_schema ws'
  let results ← student_results ws' schema
  let data : BroadSheetData :=
    { students_results := results, broadsheet_schema := schema }
  .ok (schema.term, data)

/-- Sequence `processWs` over a worksheet list, stopping at the first
error. -/
def mapME : List Worksheet → Except PyError (List (String × BroadSheetData))
  | [] => .ok []
  | ws :: rest => do
    let p ← processWs ws
    let r ← mapME rest
    .ok (p :: r)

/-- The accumulation loop of `extract_broadsheets_data`:
`broadsheets_data[term] = ...` per worksheet. -/
def extractGo :
    List Worksheet → List (String × BroadSheetData) →
      Except PyError (List (String × BroadSheetData))
  | [], acc => .ok acc
  | ws :: rest, acc => do
    let p ← processWs ws
    extractGo rest (upsert acc p.1 p.2)

/-- `extract_broadsheets_data` from `sheet_utils.py` (the workbook given as
its list of worksheets; loading the file is out of scope). -/
def extract_broadsheets_data (wb : List Worksheet) :
    Except PyError (List (String × BroadSheetData)) :=
  extractGo (wb.filter keepWorksheet) []

/-- The per-worksheet results of a workbook in sheet order, before the
term-keyed insertion. -/
def processedItems (wb : List Worksheet) :
    Except PyError (List (String × BroadSheetData)) :=
  mapME (wb.filter keepWorksheet)

/-- Number of entries of an association list carrying a given key. -/
def countKey {V : Type} : List (String × V) → String → Nat
  | [], _ => 0
  | (k, _) :: rest, t => (if k = t then 1 else 0) + countKey rest t

/-- The first row (from a given row list) whose column-2 cell is truthy,
with that cell's value: where the `students` generator yields first. -/
def firstTruthyName (ws : Worksheet) : List Nat → Option (Nat × CellVal)
  | [] => none
  | r :: rest =>
    match ws.cell r 2 with
    | some v => if v.truthy then some (r, v) else firstTruthyName ws rest
    | none => firstTruthyName ws rest

/-- Subjects schema of C9's counterexample: all three keys present. -/
def ssC9 : List (String × List (String × SchemaInfo)) :=
  [("math", [("mid_term_score", { column := some 3 }),
             ("exam_score", { column := some 4 }),
             ("total_score", { column := some 5 })])]

/-- Worksheet of C9's counterexample: the total-score cell at row 5,
column 5 holds text, so `round` raises `TypeError`. -/
def wsC9 : Worksheet :=
  { title := "T"
    rows := [[], [], [], [],
      [none, some (.str "John"), none, none, some (.str "abc")]] }

/-- Worksheet with a zero-valued cell at row 4, column 3 (C5's quirk). -/
def wsC5 : Worksheet :=
  { title := "T", rows := [[], [], [], [none, none, some (.num 0)]] }

/-- Worksheet for C10: a subject title in the header but no data columns
(so no comment columns), and a student name at row 5. -/
def wsC10 : Worksheet :=
  { title := "T"
    rows := [[some (.str "x"), none, none],
      [none, none, some (.str "Math")],
      [], [],
      [none, some (.str "John")]] }

/-- The schema `get_broadsheet_schema` extracts from `wsC10`. -/
def schC10 : BroadSheetSchema :=
  { term := "T", subjects := [("math", [])], aggregates := []
    teachers_comment := {}, coordinators_comment := {} }

/-- First workbook sheet of C8's term-collision scenario. -/
def wsC8a : Worksheet :=
  { title := "Term1"
    rows := [[some (.str "x"), none, none], [], [], [], []] }

/-- Second workbook sheet of C8's term-collision scenario: same resolved
term "Term1", but a distinguishable schema (one aggregate column). -/
def wsC8b : Worksheet :=
  { title := "term1"
    rows := [[some (.str "x"), none, none], [],
      [none, none, some (.str "avg")],
      [none, none, some (.num 50)], []] }

/-- The two-sheet workbook with colliding terms. -/
def wbC8 : List Worksheet := [wsC8a, wsC8b]

/-- Schema extracted from `wsC8a`. -/
def schC8a : BroadSheetSchema :=
  { term := "Term1", subjects := [], aggregates := []
    teachers_comment := {}, coordinators_comment := {} }

/-- Schema extracted from `wsC8b`. -/
def schC8b : BroadSheetSchema :=
  { term := "Term1", subjects := []
    aggregates := [("avg", { column := some 3, overall := some (.num 50) })]
    teachers_comment := { column := some 4 }
    coordinators_comment := { column := some 5 } }

/-- Broadsheet data of the second (later) sheet. -/
def dataC8b : BroadSheetData :=
  { students_results := [], broadsheet_schema := schC8b }

theorem rfeRows_idem (l : List (List (Option CellVal))) :
    rfeRows (rfeRows l) = rfeRows l := by
  induction l with
  | nil => rfl
  | cons r rest ih =>
    by_cases h : rowIsEmpty r
    · simp [rfeRows, h, ih]
    · simp [rfeRows, h]

theorem rfeRows_head_nonempty (l : List (List (Option CellVal))) :
    rfeRows l = [] ∨
      ∃ r rest, rfeRows l = r :: rest ∧ rowIsEmpty r = false := by
  induction l with
  | nil => exact Or.inl rfl
  | cons r rest ih =>
    by_cases h : rowIsEmpty r
    · simpa [rfeRows, h] using ih
    · exact Or.inr ⟨r, rest, by simp [rfeRows, h], by simpa using h⟩

/-- C7: the Grid Normalizer is idempotent: one application leaves either no
rows or a first row with a non-empty cell, so a second application deletes
nothing and returns the same worksheet. -/
theorem c7_normalizer_idempotent (ws : Worksheet) :
    remove_empty_first_rows (remove_empty_first_rows ws) =
      remove_empty_first_rows ws ∧
    ((remove_empty_first_rows ws).rows = [] ∨
      ∃ r rest, (remove_empty_first_rows ws).rows = r :: rest ∧
        rowIsEmpty r = false) := by
  constructor
  · simp [remove_empty_first_rows, rfeRows_idem]
  · simpa [remove_empty_first_rows] using rfeRows_head_nonempty ws.rows

/-- C1 counterexample: the claim says `gradeOf(84.9) = B`, but the code's
`70 <= score <= 84` test fails for 84.9, which falls through every branch
to `F`. -/
theorem c1_counterexample :
    get_grade (some (849 / 10)) = some Grade.F ∧
      some Grade.F ≠ some Grade.B := by
  constructor
  · with_unfolding_all decide
  · decide

/-- C1 (amended): `gradeOf` maps `None` to `None`, otherwise rounds to one
decimal place and classifies with inclusive integer bounds; rounded scores
strictly between consecutive bands (84.9, 69.9, 54.9, 49.9) fall through to
F, so the boundary table is 85→A, 84.9→F, 70→B, 69.9→F, 55→C, 54.9→F,
50→D, 49.9→F, 45→E, 44.9→F, 0→F. -/
theorem c1_grade_ranges :
    get_grade none = none ∧
    (∀ q : ℚ, 85 ≤ pyRound1 q → get_grade (some q) = some Grade.A) ∧
    (∀ q : ℚ, 70 ≤ pyRound1 q → pyRound1 q ≤ 84 →
      get_grade (some q) = some Grade.B) ∧
    (∀ q : ℚ, 55 ≤ pyRound1 q → pyRound1 q ≤ 69 →
      get_grade (some q) = some Grade.C) ∧
    (∀ q : ℚ, 50 ≤ pyRound1 q → pyRound1 q ≤ 54 →
      get_grade (some q) = some Grade.D) ∧
    (∀ q : ℚ, 45 ≤ pyRound1 q → pyRound1 q ≤ 49 →
      get_grade (some q) = some Grade.E) ∧
    (∀ q : ℚ, pyRound1 q < 85 → ¬(70 ≤ pyRound1 q ∧ pyRound1 q ≤ 84) →
      ¬(55 ≤ pyRound1 q ∧ pyRound1 q ≤ 69) →
      ¬(50 ≤ pyRound1 q ∧ pyRound1 q ≤ 54) →
      ¬(45 ≤ pyRound1 q ∧ pyRound1 q ≤ 49) →
      get_grade (some q) = some Grade.F) ∧
    get_grade (some 85) = some Grade.A ∧
    get_grade (some (849 / 10)) = some Grade.F ∧
    get_grade (some 70) = some Grade.B ∧
    get_grade (some (699 / 10)) = some Grade.F ∧
    get_grade (some 55) = some Grade.C ∧
    get_grade (some (549 / 10)) = some Grade.F ∧
    get_grade (some 50) = some Grade.D ∧
    get_grade (some (499 / 10)) = some Grade.F ∧
    get_grade (some 45) = some Grade.E ∧
    get_grade (some (449 / 10)) = some Grade.F ∧
    get_grade (some 0) = some Grade.F := by
  refine ⟨rfl, ?_, ?_, ?_, ?_, ?_, ?_, ?_⟩
  · intro q h
    simp only [get_grade, classifyScore]
    rw [if_pos h]
  · intro q h1 h2
    simp only [get_grade, classifyScore]
    rw [if_neg (by linarith), if_pos ⟨h1, h2⟩]
  · intro q h1 h2
    simp only [get_grade, classifyScore]
    rw [if_neg (by linarith), if_neg (by rintro ⟨h, -⟩; linarith),
      if_pos ⟨h1, h2⟩]
  · intro q h1 h2
    simp only [get_grade, classifyScore]
    rw [if_neg (by linarith), if_neg (by rintro ⟨h, -⟩; linarith),
      if_neg (by rintro ⟨h, -⟩; linarith), if_pos ⟨h1, h2⟩]
  · intro q h1 h2
    simp only [get_grade, classifyScore]
    rw [if_neg (by linarith), if_neg (by rintro ⟨h, -⟩; linarith),
      if_neg (by rintro ⟨h, -⟩; linarith),
      if_neg (by rintro ⟨h, -⟩; linarith), if_pos ⟨h1, h2⟩]
  · intro q h1 h2 h3 h4 h5
    simp only [get_grade, classifyScore]
    rw [if_neg (by linarith), if_neg h2, if_neg h3, if_neg h4, if_neg h5]
  · with_unfolding_all decide

/-- C1 witness: the range clauses of `c1_grade_ranges` instantiated at
concrete scores. -/
theorem c1_witness :
    (85 : ℚ) ≤ pyRound1 90 ∧ get_grade (some 90) = some Grade.A ∧
      (70 : ℚ) ≤ pyRound1 80 ∧ pyRound1 (80 : ℚ) ≤ 84 ∧
      get_grade (some 80) = some Grade.B :=
  ⟨by with_unfolding_all decide,
    c1_grade_ranges.2.1 90 (by with_unfolding_all decide),
    by with_unfolding_all decide, by with_unfolding_all decide,
    c1_grade_ranges.2.2.1 80 (by with_unfolding_all decide)
      (by with_unfolding_all decide)⟩

/-- C6: `_to_internal` strips and lower-cases, then applies the fixed
13-entry external-to-internal table, returning the normalized string
unchanged when it is not a key of the table. -/
theorem c6_to_internal_spec :
    (∀ s : String,
      alookup EXTERNAL_TO_INTERNAL_MAPPING (pyLower (pyStrip s)) = none →
        to_internal s = pyLower (pyStrip s)) ∧
    (∀ s v,
      alookup EXTERNAL_TO_INTERNAL_MAPPING (pyLower (pyStrip s)) = some v →
        to_internal s = v) ∧
    to_internal "  MID  " = "mid_term_score" ∧
    to_internal "unknown header" = "unknown header" ∧
    EXTERNAL_TO_INTERNAL_MAPPING.length = 13 ∧
    to_internal "mid" = "mid_term_score" ∧
    to_internal "exam" = "exam_score" ∧
    to_internal "total" = "total_score" ∧
    to_internal "mid %" = "mid term %" ∧
    to_internal "mid total" = "mid term total" ∧
    to_internal "sim %" = "sum total %" ∧
    to_internal "sum %" = "sum total %" ∧
    to_internal "1st term" = "1st term total" ∧
    to_internal "2nd term" = "2nd term total" ∧
    to_internal "3rd term" = "3rd term total" ∧
    to_internal "cumtotal" = "cumulative (session) total" ∧
    to_internal "av. total" = "average total" ∧
    to_internal "av. %" = "average %" := by
  refine ⟨?_, ?_, ?_⟩
  · intro s h
    simp only [to_internal, h, Option.getD_none]
  · intro s v h
    simp only [to_internal, h, Option.getD_some]
  · decide

/-- C6 witness: the two table-lookup clauses of `c6_to_internal_spec`
instantiated at "xyz" (not a table key) and "cumtotal" (a table key). -/
theorem c6_witness :
    to_internal "xyz" = pyLower (pyStrip "xyz") ∧
      to_internal "cumtotal" = "cumulative (session) total" :=
  ⟨c6_to_internal_spec.1 "xyz" (by decide),
    c6_to_internal_spec.2.1 "cumtotal" "cumulative (session) total"
      (by decide)⟩

/-- C3: on the synthetic header (row2 Math at column 3, row3 Mid/Exam/Total,
row4 all 100), the extracted schema has exactly one subject "math" with the
three canonical sub-entries at columns 3, 4, 5 and overall 100 each. -/
theorem c3_schema_round_trip :
    (get_broadsheet_schema wsC3).map (fun sch => sch.subjects) =
      .ok [("math",
        [("mid_term_score", { column := some 3, overall := some (.num 100) }),
         ("exam_score", { column := some 4, overall := some (.num 100) }),
         ("total_score", { column := some 5, overall := some (.num 100) })])] := by
  with_unfolding_all decide

/-- C4: whenever the scan completes, the returned schema places the
teachers' comment column at the last data column plus 1 and the
coordinators' at plus 2, and when no data column was seen both comment
schemas are empty dicts with no column entry at all. -/
theorem c4_comment_columns (ws : Worksheet) (st : ScanState)
    (h : scanWs ws = .ok st) :
    get_broadsheet_schema ws = .ok (finalizeSchema ws.title st) ∧
    (finalizeSchema ws.title st).teachers_comment.column =
      st.last.map (fun c => c + 1) ∧
    (finalizeSchema ws.title st).coordinators_comment.column =
      st.last.map (fun c => c + 2) ∧
    (st.last = none →
      (finalizeSchema ws.title st).teachers_comment = {} ∧
      (finalizeSchema ws.title st).coordinators_comment = {}) := by
  refine ⟨by simp [get_broadsheet_schema, h], ?_, ?_, ?_⟩
  · cases hl : st.last <;> simp [finalizeSchema, hl]
  · cases hl : st.last <;> simp [finalizeSchema, hl]
  · intro hl
    simp [finalizeSchema, hl]

/-- C4 witness: `c4_comment_columns` at the empty worksheet, whose scan
sees no data column. -/
theorem c4_witness :
    scanWs wsC4 = .ok stC4 ∧
      (get_broadsheet_schema wsC4 = .ok (finalizeSchema wsC4.title stC4) ∧
       (finalizeSchema wsC4.title stC4).teachers_comment.column =
         stC4.last.map (fun c => c + 1) ∧
       (finalizeSchema wsC4.title stC4).coordinators_comment.column =
         stC4.last.map (fun c => c + 2) ∧
       (stC4.last = none →
         (finalizeSchema wsC4.title stC4).teachers_comment = {} ∧
         (finalizeSchema wsC4.title stC4).coordinators_comment = {})) :=
  ⟨by decide, c4_comment_columns wsC4 stC4 (by decide)⟩

theorem alookup_append_single {V : Type} (l : List (String × V)) (t : String)
    (x : V) (h : alookup l t = none) : alookup (l ++ [(t, x)]) t = some x := by
  induction l with
  | nil => simp [alookup]
  | cons p rest ih =>
    obtain ⟨k, v⟩ := p
    by_cases hk : k = t
    · simp [alookup, hk] at h
    · simp [alookup, hk] at h ⊢
      exact ih h

theorem registerSubject_lookup (subs : List (String × List (String × SchemaInfo)))
    (t : String) : ∃ l, alookup (registerSubject subs t) t = some l := by
  unfold registerSubject
  cases h : alookup subs t with
  | some l => exact ⟨l, by simp [h]⟩
  | none => exact ⟨[], by simp [h, alookup_append_single subs t [] h]⟩

theorem upsert_self {V : Type} (l : List (String × V)) (s : String) (x : V) :
    alookup (upsert l s x) s = some x := by
  induction l with
  | nil => simp [upsert, alookup]
  | cons p rest ih =>
    obtain ⟨k, v⟩ := p
    by_cases hk : k = s
    · simp [upsert, hk, alookup]
    · simp [upsert, hk, alookup, ih]

theorem setSubjectEntry_of_lookup
    (subs : List (String × List (String × SchemaInfo))) (t s : String)
    (info : SchemaInfo) (l : List (String × SchemaInfo))
    (h : alookup subs t = some l) :
    ∃ subs', setSubjectEntry subs t s info = some subs' ∧
      alookup subs' t = some (upsert l s info) := by
  induction subs with
  | nil => simp [alookup] at h
  | cons p rest ih =>
    obtain ⟨k, v⟩ := p
    by_cases hk : k = t
    · subst hk
      simp only [alookup, if_true] at h
      have hv : v = l := Option.some.inj h
      subst hv
      exact ⟨(k, upsert v s info) :: rest,
        by simp [setSubjectEntry], by simp [alookup]⟩
    · simp [alookup, hk] at h
      obtain ⟨r, hr, hl⟩ := ih h
      exact ⟨(k, v) :: r, by simp [setSubjectEntry, hk, hr],
        by simp [alookup, hk, hl]⟩

/-- C2 counterexample: in `wsC2`, column 3 has row-2 title "Math" (so per
the claim "math" should be the active title for columns 4 and 5), but its
own row-3 sub-title is empty; column 4's sub-title "Mid" is then recorded
as an aggregate "mid_term_score" and the subject "math" stays empty, so the
non-empty title did not become the active subject key. -/
theorem c2_counterexample :
    (get_broadsheet_schema wsC2).map
        (fun sch => (alookup sch.subjects "math",
          alookup sch.aggregates "mid_term_score")) =
      .ok (some [], some { column := some 4, overall := none }) ∧
    some ([] : List (String × SchemaInfo)) ≠
      some [("mid_term_score",
        ({ column := some 4, overall := none } : SchemaInfo))] := by
  constructor
  · with_unfolding_all decide
  · decide

/-- C2 (amended): when a column's row-2 title is non-empty the scanner
canonicalizes it and registers an empty subject placeholder; it becomes the
active title for the rest of the batch only when the column's own row-3
sub-title is also non-empty (otherwise the active title is left unchanged);
and a column with an empty title but an active title in effect records its
sub-title under the active title as subject key. -/
theorem c2_scan_step :
    (∀ (ws : Worksheet) (st : ScanState) (prev : Option String) (c : Nat)
        (s : String), ws.cell 2 c = some (.str s) →
      (CellVal.str s).truthy = true → otruthy (ws.cell 3 c) = false →
      scanCol ws st prev c =
        .ok ({ st with subjects := registerSubject st.subjects (to_internal s) },
          prev)) ∧
    (∀ (ws : Worksheet) (st : ScanState) (prev : Option String) (c : Nat)
        (s t : String), ws.cell 2 c = some (.str s) →
      (CellVal.str s).truthy = true → ws.cell 3 c = some (.str t) →
      (CellVal.str t).truthy = true →
      ∃ subs, scanCol ws st prev c =
          .ok ({ st with subjects := subs, last := some c },
            some (to_internal s)) ∧
        (alookup subs (to_internal s)).map (fun l => alookup l (to_internal t)) =
          some (some { column := some c, overall := ws.cell 4 c })) ∧
    (∀ (ws : Worksheet) (st : ScanState) (c : Nat) (p t : String),
      otruthy (ws.cell 2 c) = false → ws.cell 3 c = some (.str t) →
      (CellVal.str t).truthy = true →
      ∀ l, alookup st.subjects p = some l →
      ∃ subs, scanCol ws st (some p) c =
          .ok ({ st with subjects := subs, last := some c }, some p) ∧
        alookup subs p = some (upsert l (to_internal t)
          { column := some c, overall := ws.cell 4 c })) := by
  refine ⟨?_, ?_, ?_⟩
  · intro ws st prev c s hcell hs hsub
    have h1 : otruthy (ws.cell 2 c) = true := by
      rw [hcell]; simpa [otruthy] using hs
    have h2 : asStr (ws.cell 2 c) = .ok s := by rw [hcell]; rfl
    simp [scanCol, scanTail, h1, h2, hsub]
  · intro ws st prev c s t hcell hs hsub ht
    obtain ⟨l, hl⟩ := registerSubject_lookup st.subjects (to_internal s)
    obtain ⟨subs', hset, hsubs⟩ := setSubjectEntry_of_lookup
      (registerSubject st.subjects (to_internal s)) (to_internal s)
      (to_internal t) { column := some c, overall := ws.cell 4 c } l hl
    have h1 : otruthy (ws.cell 2 c) = true := by
      rw [hcell]; simpa [otruthy] using hs
    have h2 : asStr (ws.cell 2 c) = .ok s := by rw [hcell]; rfl
    have h3 : otruthy (ws.cell 3 c) = true := by
      rw [hsub]; simpa [otruthy] using ht
    have h4 : asStr (ws.cell 3 c) = .ok t := by rw [hsub]; rfl
    refine ⟨subs', ?_, ?_⟩
    · simp [scanCol, scanTail, h1, h2, h3, h4, hset]
    · simp [hsubs, upsert_self]
  · intro ws st c p t hcell hsub ht l hl
    obtain ⟨subs', hset, hsubs⟩ := setSubjectEntry_of_lookup st.subjects p
      (to_internal t) { column := some c, overall := ws.cell 4 c } l hl
    have h3 : otruthy (ws.cell 3 c) = true := by
      rw [hsub]; simpa [otruthy] using ht
    have h4 : asStr (ws.cell 3 c) = .ok t := by rw [hsub]; rfl
    refine ⟨subs', ?_, hsubs⟩
    simp [scanCol, scanTail, hcell, h3, h4, hset]

/-- C2 witness: the three clauses of `c2_scan_step` instantiated on the
concrete worksheets `wsC2` (titled column with empty sub-title) and `wsC3`
(titled column with sub-title, then an untitled data column). -/
theorem c2_witness :
    scanCol wsC2 { subjects := [], aggregates := [], last := none } none 3 =
      .ok ({ subjects := [("math", [])], aggregates := [], last := none },
        none) ∧
    (∃ subs, scanCol wsC3 { subjects := [], aggregates := [], last := none }
        none 3 =
        .ok ({ subjects := subs, aggregates := [], last := some 3 },
          some "math") ∧
      (alookup subs "math").map (fun l => alookup l "mid_term_score") =
        some (some { column := some 3, overall := some (.num 100) })) ∧
    (∃ subs, scanCol wsC3
        { subjects := [("math", [])], aggregates := [], last := none }
        (some "math") 4 =
        .ok ({ subjects := subs, aggregates := [], last := some 4 },
          some "math") ∧
      alookup subs "math" = some (upsert [] "exam_score"
        { column := some 4, overall := some (.num 100) })) := by
  refine ⟨?_, ?_, ?_⟩
  · have h := c2_scan_step.1 wsC2
      { subjects := [], aggregates := [], last := none } none 3 "Math"
      (by decide) (by decide) (by decide)
    simpa using h
  · have h := c2_scan_step.2.1 wsC3
      { subjects := [], aggregates := [], last := none } none 3 "Math" "Mid"
      (by decide) (by decide) (by decide) (by decide)
    simpa using h
  · have h := c2_scan_step.2.2 wsC3
      { subjects := [("math", [])], aggregates := [], last := none } 4
      "math" "Exam" (by decide) (by decide) (by decide) [] (by decide)
    simpa using h

@[simp] theorem ok_bind {ε α β : Type} (x : α) (f : α → Except ε β) :
    (Except.ok x >>= f) = f x := rfl

@[simp] theorem error_bind {ε α β : Type} (e : ε) (f : α → Except ε β) :
    ((Except.error e : Except ε α) >>= f) = .error e := rfl

theorem getColumn_ok (si : SchemaInfo) (c : Nat) (h : getColumn si = .ok c) :
    si.column = some c := by
  cases hc : si.column with
  | none => simp [getColumn, hc] at h
  | some x =>
    simp [getColumn, hc] at h
    simp [h]

theorem getColumn_of_some (si : SchemaInfo) (c : Nat)
    (h : si.column = some c) : getColumn si = .ok c := by
  simp [getColumn, h]

theorem getKey_ok {V : Type} (d : List (String × V)) (k : String) (v : V)
    (h : getKey d k = .ok v) : alookup d k = some v := by
  cases hc : alookup d k with
  | none => simp [getKey, hc] at h
  | some x =>
    simp [getKey, hc] at h
    simp [h]

theorem getKey_of_some {V : Type} (d : List (String × V)) (k : String)
    (v : V) (h : alookup d k = some v) : getKey d k = .ok v := by
  simp [getKey, h]

theorem pyRoundIfTruthy_ok (v : Option CellVal) (q : Option ℚ)
    (h : pyRoundIfTruthy v = .ok q) :
    (otruthy v = true → ∃ x, v = some (.num x) ∧ q = some (pyRound1 x)) ∧
      (otruthy v = false → q = none) := by
  constructor
  · intro ht
    match v with
    | none => simp [otruthy] at ht
    | some (.str s) => simp [pyRoundIfTruthy, ht] at h
    | some (.num x) =>
      simp only [pyRoundIfTruthy, ht, if_true] at h
      exact ⟨x, rfl, by simpa using h.symm⟩
  · intro hf
    simp [pyRoundIfTruthy, hf] at h
    exact h.symm

theorem gradeOfCell_error (v : Option CellVal) (e : PyError)
    (h : gradeOfCell v = .error e) :
    e = .typeError "type does not define a rounding" := by
  match v with
  | none => simp [gradeOfCell] at h
  | some (.num q) => simp [gradeOfCell] at h
  | some (.str s) => simpa [gradeOfCell] using h.symm

/-- C5: whenever aggregate extraction succeeds, the output pairs each
aggregate name with the cell value at its column rounded to 1 decimal place
when that value is truthy and `None` otherwise; in particular a cell value
of 0 is falsy and extracts as `None`, not 0. -/
theorem c5_aggregate_values :
    (∀ (ws : Worksheet) (row : Nat) (schemas : List (String × SchemaInfo))
        (out : List (String × Option ℚ)),
      get_aggregates_values ws row schemas = .ok out →
      List.Forall₂ (fun (p : String × SchemaInfo) (q : String × Option ℚ) =>
        q.1 = p.1 ∧ ∃ c, p.2.column = some c ∧
          (otruthy (ws.cell row c) = true →
            ∃ x, ws.cell row c = some (.num x) ∧ q.2 = some (pyRound1 x)) ∧
          (otruthy (ws.cell row c) = false → q.2 = none)) schemas out) ∧
    (∀ (ws : Worksheet) (row : Nat) (name : String) (c : Nat),
      ws.cell row c = some (.num 0) →
      get_aggregates_values ws row [(name, { column := some c })] =
        .ok [(name, none)]) := by
  constructor
  · intro ws row schemas
    induction schemas with
    | nil =>
      intro out h
      simp only [get_aggregates_values] at h
      cases h
      exact List.Forall₂.nil
    | cons p rest ih =>
      obtain ⟨name, si⟩ := p
      intro out h
      simp only [get_aggregates_values] at h
      cases hc : getColumn si with
      | error e => simp [hc] at h
      | ok c =>
        rw [hc] at h
        simp only [ok_bind] at h
        cases hq : pyRoundIfTruthy (ws.cell row c) with
        | error e => simp [hq] at h
        | ok q =>
          rw [hq] at h
          simp only [ok_bind] at h
          cases hr : get_aggregates_values ws row rest with
          | error e => simp [hr] at h
          | ok rest' =>
            rw [hr] at h
            simp only [ok_bind] at h
            cases h
            refine List.Forall₂.cons ⟨rfl, c, getColumn_ok si c hc, ?_⟩
              (ih rest' hr)
            exact pyRoundIfTruthy_ok (ws.cell row c) q hq
  · intro ws row name c h
    have h0 : otruthy (ws.cell row c) = false := by
      simp [h, otruthy, CellVal.truthy]
    simp [get_aggregates_values, getColumn, pyRoundIfTruthy, h0]

/-- C5 witness: aggregate extraction on a concrete worksheet with a truthy
numeric cell and on one with a 0-valued cell. -/
theorem c5_witness :
    List.Forall₂ (fun (p : String × SchemaInfo) (q : String × Option ℚ) =>
      q.1 = p.1 ∧ ∃ c, p.2.column = some c ∧
        (otruthy (wsC9.cell 5 c) = true →
          ∃ x, wsC9.cell 5 c = some (.num x) ∧ q.2 = some (pyRound1 x)) ∧
        (otruthy (wsC9.cell 5 c) = false → q.2 = none))
      [("avg", { column := some 3 })] [("avg", none)] ∧
    get_aggregates_values wsC5 4 [("avg", { column := some 3 })] =
      .ok [("avg", none)] :=
  ⟨c5_aggregate_values.1 wsC9 5 [("avg", { column := some 3 })]
      [("avg", none)] (by decide),
    c5_aggregate_values.2 wsC5 4 "avg" 3 (by decide)⟩

/-- C9 counterexample: a subjects schema whose only subject has all three
keys, yet extraction raises `TypeError` (not a result) because the
total-score cell holds text and `round` rejects it, refuting "when all
three keys are present for every subject it never raises". -/
theorem c9_counterexample :
    (∀ p ∈ ssC9, alookup p.2 "mid_term_score" ≠ none ∧
      alookup p.2 "exam_score" ≠ none ∧ alookup p.2 "total_score" ≠ none) ∧
    get_subjects_scores_for_student wsC9 5 ssC9 =
      .error (.typeError "type does not define a rounding") := by
  constructor
  · decide
  · decide

/-- C9 (amended): if some registered subject lacks one of the three score
keys, subject-score extraction fails with an error rather than producing a
result; and when every subject has all three keys (each with a column), the
extraction never raises a lookup/key error (though it can still raise a
type error on a textual total-score cell). -/
theorem c9_missing_key_behavior :
    (∀ (ws : Worksheet) (row : Nat)
        (schemas : List (String × List (String × SchemaInfo))),
      (∃ p ∈ schemas, alookup p.2 "mid_term_score" = none ∨
        alookup p.2 "exam_score" = none ∨
        alookup p.2 "total_score" = none) →
      ∃ e, get_subjects_scores_for_student ws row schemas = .error e) ∧
    (∀ (ws : Worksheet) (row : Nat)
        (schemas : List (String × List (String × SchemaInfo))),
      (∀ p ∈ schemas,
        (∃ i c, alookup p.2 "mid_term_score" = some i ∧
          i.column = some c) ∧
        (∃ i c, alookup p.2 "exam_score" = some i ∧ i.column = some c) ∧
        (∃ i c, alookup p.2 "total_score" = some i ∧ i.column = some c)) →
      ∀ k, get_subjects_scores_for_student ws row schemas ≠
        .error (.keyError k)) := by
  constructor
  · intro ws row schemas
    induction schemas with
    | nil => rintro ⟨p, hp, -⟩; simp at hp
    | cons hd rest ih =>
      obtain ⟨subject, ss⟩ := hd
      rintro ⟨p, hp, hmiss⟩
      cases hres : get_subjects_scores_for_student ws row
          ((subject, ss) :: rest) with
      | error e => exact ⟨e, rfl⟩
      | ok out =>
        exfalso
        simp only [get_subjects_scores_for_student] at hres
        cases h1 : getKey ss "mid_term_score" with
        | error e => simp [h1] at hres
        | ok mi =>
        rw [h1] at hres; simp only [ok_bind] at hres
        cases h2 : getColumn mi with
        | error e => simp [h2] at hres
        | ok mc =>
        rw [h2] at hres; simp only [ok_bind] at hres
        cases h3 : getKey ss "exam_score" with
        | error e => simp [h3] at hres
        | ok ei =>
        rw [h3] at hres; simp only [ok_bind] at hres
        cases h4 : getColumn ei with
        | error e => simp [h4] at hres
        | ok ec =>
        rw [h4] at hres; simp only [ok_bind] at hres
        cases h5 : getKey ss "total_score" with
        | error e => simp [h5] at hres
        | ok ti =>
        rw [h5] at hres; simp only [ok_bind] at hres
        cases h6 : getColumn ti with
        | error e => simp [h6] at hres
        | ok tc =>
        rw [h6] at hres; simp only [ok_bind] at hres
        cases h7 : gradeOfCell (ws.cell row tc) with
        | error e => simp [h7] at hres
        | ok g =>
        rw [h7] at hres; simp only [ok_bind] at hres
        cases h8 : get_subjects_scores_for_student ws row rest with
        | error e => simp [h8] at hres
        | ok rest' =>
        rcases List.mem_cons.mp hp with rfl | hmem
        · rcases hmiss with hm | hm | hm
          · rw [getKey_ok ss "mid_term_score" mi h1] at hm; cases hm
          · rw [getKey_ok ss "exam_score" ei h3] at hm; cases hm
          · rw [getKey_ok ss "total_score" ti h5] at hm; cases hm
        · obtain ⟨e, he⟩ := ih ⟨p, hmem, hmiss⟩
          rw [he] at h8; cases h8
  · intro ws row schemas
    induction schemas with
    | nil => intro _ k h; simp [get_subjects_scores_for_student] at h
    | cons hd rest ih =>
      obtain ⟨subject, ss⟩ := hd
      intro hall k hcontra
      obtain ⟨⟨mi, mc, hm1, hm2⟩, ⟨ei, ec, he1, he2⟩, ⟨ti, tc, ht1, ht2⟩⟩ :=
        hall (subject, ss) (List.mem_cons_self _ _)
      simp only [get_subjects_scores_for_student,
        getKey_of_some ss "mid_term_score" mi hm1, getColumn_of_some mi mc hm2,
        getKey_of_some ss "exam_score" ei he1, getColumn_of_some ei ec he2,
        getKey_of_some ss "total_score" ti ht1, getColumn_of_some ti tc ht2,
        ok_bind] at hcontra
      cases h7 : gradeOfCell (ws.cell row tc) with
      | error e =>
        rw [h7] at hcontra
        simp only [error_bind, Except.error.injEq] at hcontra
        rw [gradeOfCell_error (ws.cell row tc) e h7] at hcontra
        cases hcontra
      | ok g =>
        rw [h7] at hcontra; simp only [ok_bind] at hcontra
        cases h8 : get_subjects_scores_for_student ws row rest with
        | error e =>
          rw [h8] at hcontra
          simp only [error_bind, Except.error.injEq] at hcontra
          exact ih (fun p hp => hall p (List.mem_cons_of_mem _ hp)) k
            (by rw [h8, hcontra])
        | ok rest' =>
          rw [h8] at hcontra
          simp at hcontra

/-- C9 witness: the two clauses of `c9_missing_key_behavior` instantiated:
a subject with an empty schema dict makes extraction fail, and the complete
schema `ssC9` never produces a key error. -/
theorem c9_witness :
    (∃ e, get_subjects_scores_for_student wsC9 5 [("math", [])] =
      .error e) ∧
    get_subjects_scores_for_student wsC9 5 ssC9 ≠
      .error (.keyError "column") :=
  ⟨c9_missing_key_behavior.1 wsC9 5 [("math", [])]
      ⟨("math", []), by simp, Or.inl rfl⟩,
    c9_missing_key_behavior.2 wsC9 5 ssC9
      (by
        intro p hp
        simp only [ssC9, List.mem_cons, List.not_mem_nil, or_false] at hp
        subst hp
        exact ⟨⟨{ column := some 3 }, 3, rfl, rfl⟩,
          ⟨{ column := some 4 }, 4, rfl, rfl⟩,
          ⟨{ column := some 5 }, 5, rfl, rfl⟩⟩)
      "column"⟩

theorem registerSubject_empty (subs : List (String × List (String × SchemaInfo)))
    (t : String) (h : ∀ p ∈ subs, p.2 = []) :
    ∀ p ∈ registerSubject subs t, p.2 = ([] : List (String × SchemaInfo)) := by
  intro p hp
  unfold registerSubject at hp
  by_cases hl : (alookup subs t).isSome
  · rw [if_pos hl] at hp
    exact h p hp
  · rw [if_neg hl] at hp
    rcases List.mem_append.mp hp with hm | hm
    · exact h p hm
    · simp only [List.mem_singleton] at hm
      rw [hm]

theorem scanTail_degenerate (st : ScanState) (prev : Option String)
    (t : String) (s0 ov : Option CellVal) (c : Nat) (st' : ScanState)
    (prev' : Option String) (h : scanTail st prev t s0 ov c = .ok (st', prev'))
    (hd : st.last = none → (∀ p ∈ st.subjects, p.2 = []) ∧ st.aggregates = []) :
    st'.last = none → (∀ p ∈ st'.subjects, p.2 = []) ∧ st'.aggregates = [] := by
  intro hl
  simp only [scanTail] at h
  split at h
  · split at h
    · cases h
    · split at h
      · cases h
      · cases h
        simp at hl
  · cases h
    exact hd hl

theorem scanCol_degenerate (ws : Worksheet) (st : ScanState)
    (prev : Option String) (c : Nat) (st' : ScanState) (prev' : Option String)
    (h : scanCol ws st prev c = .ok (st', prev'))
    (hd : st.last = none → (∀ p ∈ st.subjects, p.2 = []) ∧ st.aggregates = []) :
    st'.last = none → (∀ p ∈ st'.subjects, p.2 = []) ∧ st'.aggregates = [] := by
  simp only [scanCol] at h
  split at h
  · split at h
    · cases h
    · exact scanTail_degenerate _ _ _ _ _ _ _ _ h
        (fun hl => ⟨registerSubject_empty st.subjects _ (hd hl).1, (hd hl).2⟩)
  · split at h
    · exact scanTail_degenerate _ _ _ _ _ _ _ _ h hd
    · split at h
      · split at h
        · cases h
        · split at h
          · cases h
            exact hd
          · cases h
            intro hl
            simp at hl
      · cases h
        exact hd

theorem scanBatchGo_degenerate (ws : Worksheet) (l : List Nat)
    (st : ScanState) (prev : Option String) (st' : ScanState)
    (h : scanBatchGo ws l st prev = .ok st')
    (hd : st.last = none → (∀ p ∈ st.subjects, p.2 = []) ∧ st.aggregates = []) :
    st'.last = none → (∀ p ∈ st'.subjects, p.2 = []) ∧ st'.aggregates = [] := by
  induction l generalizing st prev with
  | nil =>
    simp only [scanBatchGo] at h
    cases h
    exact hd
  | cons c rest ih =>
    simp only [scanBatchGo] at h
    cases hsc : scanCol ws st prev c with
    | error e => rw [hsc] at h; cases h
    | ok p =>
      obtain ⟨st1, prev1⟩ := p
      rw [hsc] at h
      exact ih st1 prev1 h (scanCol_degenerate ws st prev c st1 prev1 hsc hd)

theorem scanBatches_degenerate (ws : Worksheet) (bs : List (List Nat))
    (st : ScanState) (st' : ScanState) (h : scanBatches ws bs st = .ok st')
    (hd : st.last = none → (∀ p ∈ st.subjects, p.2 = []) ∧ st.aggregates = []) :
    st'.last = none → (∀ p ∈ st'.subjects, p.2 = []) ∧ st'.aggregates = [] := by
  induction bs generalizing st with
  | nil =>
    simp only [scanBatches] at h
    cases h
    exact hd
  | cons b rest ih =>
    simp only [scanBatches] at h
    cases hb : scanBatchGo ws b st none with
    | error e => rw [hb] at h; cases h
    | ok st1 =>
      rw [hb] at h
      exact ih st1 h (scanBatchGo_degenerate ws b st none st1 hb hd)

/-- If the whole header scan ends with no data column seen, then every
registered subject is an empty placeholder and no aggregates exist. -/
theorem scanWs_degenerate (ws : Worksheet) (st : ScanState)
    (h : scanWs ws = .ok st) (hl : st.last = none) :
    (∀ p ∈ st.subjects, p.2 = []) ∧ st.aggregates = [] := by
  refine scanBatches_degenerate ws (chunk3 headerCols)
    { subjects := [], aggregates := [], last := none } st h ?_ hl
  intro _
  exact ⟨fun p hp => absurd hp (List.not_mem_nil p), rfl⟩

theorem studentResultsGo_keyError (ws : Worksheet) (sch : BroadSheetSchema)
    (hsub : ∀ p ∈ sch.subjects, p.2 = ([] : List (String × SchemaInfo)))
    (hagg : sch.aggregates = []) (hcol : sch.teachers_comment.column = none) :
    ∀ (l : List Nat) (r : Nat) (s : String),
      firstTruthyName ws l = some (r, .str s) →
      ∃ k, studentResultsGo ws sch l = .error (.keyError k) ∧
        (sch.subjects = [] → k = "column") ∧
        (sch.subjects ≠ [] → k = "mid_term_score") := by
  intro l
  induction l with
  | nil => intro r s h; simp [firstTruthyName] at h
  | cons r0 rest ih =>
    intro r s h
    cases hc : ws.cell r0 2 with
    | none =>
      simp only [firstTruthyName, hc] at h
      obtain ⟨k, hk, h1, h2⟩ := ih r s h
      refine ⟨k, ?_, h1, h2⟩
      simpa [studentResultsGo, hc, otruthy] using hk
    | some v =>
      by_cases hv : v.truthy = true
      · simp only [firstTruthyName, hc, hv, if_true, Option.some.injEq,
          Prod.mk.injEq] at h
        obtain ⟨hr0, hvs⟩ := h
        subst hvs
        cases hsubs : sch.subjects with
        | nil =>
          refine ⟨"column", ?_, fun _ => rfl, fun hne => absurd rfl hne⟩
          simp [studentResultsGo, hc, otruthy, hv, hsubs, hagg,
            get_subjects_scores_for_student, get_aggregates_values,
            getColumn, hcol]
        | cons p more =>
          obtain ⟨name, ss⟩ := p
          have hss : ss = [] := by
            have := hsub (name, ss) (by rw [hsubs]; exact List.mem_cons_self _ _)
            simpa using this
          subst hss
          refine ⟨"mid_term_score", ?_, ?_, fun _ => rfl⟩
          · simp [studentResultsGo, hc, otruthy, hv, hsubs,
              get_subjects_scores_for_student, getKey, alookup]
          · intro heq
            cases heq
      · have hv' : v.truthy = false := by simpa using hv
        simp only [firstTruthyName, hc, hv', Bool.false_eq_true, if_false] at h
        obtain ⟨k, hk, h1, h2⟩ := ih r s h
        refine ⟨k, ?_, h1, h2⟩
        simpa [studentResultsGo, hc, otruthy, hv'] using hk

/-- C10 (amended): when the extracted schema saw no data column (so both
comment schemas lack a column entry) and a student name exists at or below
row 5, `student_results` fails with a key lookup error while producing the
first result instead of yielding results: the error is on the comment
schema's missing column entry when the schema registered no subjects, and
on the first subject placeholder's missing `mid_term_score` entry
otherwise. -/
theorem c10_missing_comment_column (ws : Worksheet) (sch : BroadSheetSchema)
    (hsch : get_broadsheet_schema ws = .ok sch)
    (hcol : sch.teachers_comment.column = none) (r : Nat) (s : String)
    (hname : firstTruthyName ws (studentRows ws) = some (r, .str s)) :
    ∃ k, student_results ws sch = .error (.keyError k) ∧
      (sch.subjects = [] → k = "column") ∧
      (sch.subjects ≠ [] → k = "mid_term_score") := by
  cases hscan : scanWs ws with
  | error e => simp [get_broadsheet_schema, hscan] at hsch
  | ok st =>
    have hsch' : sch = finalizeSchema ws.title st := by
      simp only [get_broadsheet_schema, hscan, Except.ok.injEq] at hsch
      exact hsch.symm
    have hlast : st.last = none := by
      cases hl : st.last with
      | none => rfl
      | some l =>
        rw [hsch'] at hcol
        simp [finalizeSchema, hl] at hcol
    obtain ⟨hallsub, haggs⟩ := scanWs_degenerate ws st hscan hlast
    exact studentResultsGo_keyError ws sch
      (by rw [hsch']; simpa [finalizeSchema] using hallsub)
      (by rw [hsch']; simpa [finalizeSchema] using haggs)
      hcol (studentRows ws) r s hname

/-- C10 counterexample: `wsC10` satisfies the claim's hypotheses (no data
column, both comment schemas empty, a student at row 5), yet the failure is
the key lookup of the subject placeholder's `mid_term_score` entry, not the
comment schema's missing `column` entry. -/
theorem c10_counterexample :
    get_broadsheet_schema wsC10 = .ok schC10 ∧
    schC10.teachers_comment.column = none ∧
    schC10.coordinators_comment.column = none ∧
    otruthy (wsC10.cell 5 2) = true ∧
    student_results wsC10 schC10 = .error (.keyError "mid_term_score") ∧
    PyError.keyError "mid_term_score" ≠ PyError.keyError "column" := by
  decide

/-- C10 witness: `c10_missing_comment_column` instantiated on `wsC10`. -/
theorem c10_witness :
    get_broadsheet_schema wsC10 = .ok schC10 ∧
    schC10.teachers_comment.column = none ∧
    firstTruthyName wsC10 (studentRows wsC10) = some (5, .str "John") ∧
    (∃ k, student_results wsC10 schC10 = .error (.keyError k) ∧
      (schC10.subjects = [] → k = "column") ∧
      (schC10.subjects ≠ [] → k = "mid_term_score")) :=
  ⟨by decide, by decide, by decide,
    c10_missing_comment_column wsC10 schC10 (by decide) (by decide) 5 "John"
      (by decide)⟩

theorem alookup_upsert {V : Type} (l : List (String × V)) (k : String) (v : V)
    (t : String) :
    alookup (upsert l k v) t = if t = k then some v else alookup l t := by
  induction l with
  | nil =>
    by_cases ht : t = k
    · simp [upsert, alookup, ht]
    · have ht' : ¬(k = t) := fun h => ht h.symm
      simp [upsert, alookup, ht, ht']
  | cons p rest ih =>
    obtain ⟨k', v'⟩ := p
    by_cases hk : k' = k
    · subst hk
      by_cases ht : t = k'
      · subst ht
        simp [upsert, alookup]
      · have ht' : ¬(k' = t) := fun h => ht h.symm
        simp [upsert, alookup, ht, ht']
    · by_cases ht : t = k
      · subst ht
        have hk' : ¬(k' = t) := hk
        simp [upsert, alookup, hk, hk', ih]
      · simp [upsert, alookup, hk, ht, ih]

theorem countKey_upsert {V : Type} (l : List (String × V)) (k : String) (v : V)
    (t : String) :
    countKey (upsert l k v) t =
      if (alookup l k).isSome then countKey l t
      else countKey l t + (if k = t then 1 else 0) := by
  induction l with
  | nil => simp [upsert, countKey, alookup]
  | cons p rest ih =>
    obtain ⟨k', v'⟩ := p
    by_cases hk : k' = k
    · subst hk
      simp [upsert, countKey, alookup]
    · have step : countKey (upsert ((k', v') :: rest) k v) t =
          (if k' = t then 1 else 0) + countKey (upsert rest k v) t := by
        simp [upsert, hk, countKey]
      have halk : alookup ((k', v') :: rest) k = alookup rest k := by
        simp [alookup, hk]
      have hck : countKey ((k', v') :: rest) t =
          (if k' = t then 1 else 0) + countKey rest t := by
        simp [countKey]
      rw [step, ih, halk, hck]
      by_cases hs : (alookup rest k).isSome
      · simp [hs]
      · simp [hs, Nat.add_assoc]

theorem countKey_good_upsert {V : Type} (l : List (String × V)) (k : String)
    (v : V)
    (hg : ∀ t, countKey l t = if (alookup l t).isSome then 1 else 0) :
    ∀ t, countKey (upsert l k v) t =
      if (alookup (upsert l k v) t).isSome then 1 else 0 := by
  intro t
  rw [countKey_upsert, alookup_upsert]
  by_cases ht : t = k
  · subst ht
    cases hs : alookup l t with
    | some x => simp [hs, hg t]
    | none => simp [hs, hg t]
  · have hkt : ¬(k = t) := fun h => ht h.symm
    cases hs : alookup l k with
    | some x => simp [hs, ht, hg t]
    | none => simp [hs, ht, hkt, hg t]

theorem foldl_upsert_good {V : Type} (items : List (String × V)) :
    ∀ acc : List (String × V),
      (∀ t, countKey acc t = if (alookup acc t).isSome then 1 else 0) →
      ∀ t, countKey (items.foldl (fun a p => upsert a p.1 p.2) acc) t =
        if (alookup (items.foldl (fun a p => upsert a p.1 p.2) acc) t).isSome
        then 1 else 0 := by
  induction items with
  | nil => intro acc hg t; simpa using hg t
  | cons x xs ih =>
    intro acc hg t
    simp only [List.foldl_cons]
    exact ih (upsert acc x.1 x.2) (countKey_good_upsert acc x.1 x.2 hg) t

theorem find?_append {α : Type} (p : α → Bool) (l₁ l₂ : List α) :
    (l₁ ++ l₂).find? p = match l₁.find? p with
      | some a => some a
      | none => l₂.find? p := by
  induction l₁ with
  | nil => simp
  | cons a as ih =>
    cases hp : p a with
    | true => simp [List.find?, hp]
    | false => simp [List.find?, hp, ih]

theorem foldl_upsert_lookup {V : Type} (items : List (String × V)) :
    ∀ (acc : List (String × V)) (t : String),
    alookup (items.foldl (fun a p => upsert a p.1 p.2) acc) t =
      match items.reverse.find? (fun p => decide (p.1 = t)) with
      | some p => some p.2
      | none => alookup acc t := by
  induction items with
  | nil => intro acc t; simp
  | cons x xs ih =>
    intro acc t
    simp only [List.foldl_cons, List.reverse_cons]
    rw [ih, find?_append]
    cases hf : xs.reverse.find? (fun p => decide (p.1 = t)) with
    | some a => simp [hf]
    | none =>
      simp only [hf]
      rw [alookup_upsert]
      by_cases ht : t = x.1
      · simp [List.find?, ht]
      · have ht' : ¬(x.1 = t) := fun h => ht h.symm
        simp [List.find?, ht, ht']

theorem extractGo_eq (l : List Worksheet) :
    ∀ acc, extractGo l acc = match mapME l with
      | .error e => .error e
      | .ok items => .ok (items.foldl (fun a p => upsert a p.1 p.2) acc) := by
  induction l with
  | nil => intro acc; rfl
  | cons ws rest ih =>
    intro acc
    simp only [extractGo, mapME]
    cases hp : processWs ws with
    | error e => simp
    | ok p =>
      simp only [ok_bind]
      rw [ih]
      cases hm : mapME rest with
      | error e => simp
      | ok items => simp

/-- C8: whenever workbook extraction succeeds, the result maps each term to
exactly one entry, and that entry is the broadsheet data of the last (later
in sheet order) processed worksheet that resolved to this term: later
worksheets overwrite earlier ones on term collision. -/
theorem c8_last_write_wins (wb : List Worksheet)
    (m : List (String × BroadSheetData))
    (h : extract_broadsheets_data wb = .ok m) :
    ∃ items, processedItems wb = .ok items ∧
      ∀ t, countKey m t = (if (alookup m t).isSome then 1 else 0) ∧
        alookup m t =
          (items.reverse.find? (fun p => decide (p.1 = t))).map
            (fun p => p.2) := by
  rw [extract_broadsheets_data, extractGo_eq] at h
  cases hm : mapME (wb.filter keepWorksheet) with
  | error e =>
    rw [hm] at h
    exact absurd h (by simp)
  | ok items =>
    rw [hm] at h
    simp only [Except.ok.injEq] at h
    subst h
    refine ⟨items, by simpa [processedItems] using hm, ?_⟩
    intro t
    constructor
    · exact foldl_upsert_good items []
        (by intro t'; simp [countKey, alookup]) t
    · rw [foldl_upsert_lookup]
      cases hf : items.reverse.find? (fun p => decide (p.1 = t)) with
      | some a => simp
      | none => simp [alookup]

/-- C8 witness: `c8_last_write_wins` on the two-sheet workbook `wbC8` whose
sheets both resolve to term "Term1": the final mapping holds exactly the
second sheet's data. -/
theorem c8_witness :
    extract_broadsheets_data wbC8 = .ok [("Term1", dataC8b)] ∧
    ∃ items, processedItems wbC8 = .ok items ∧
      ∀ t, countKey [("Term1", dataC8b)] t =
          (if (alookup [("Term1", dataC8b)] t).isSome then 1 else 0) ∧
        alookup [("Term1", dataC8b)] t =
          (items.reverse.find? (fun p => decide (p.1 = t))).map
            (fun p => p.2) :=
  ⟨by decide, c8_last_write_wins wbC8 [("Term1", dataC8b)] (by decide)⟩

end Edenplace
